import Mathlib

/-!
Shallow embedding of the payton collision-detection core
(src/payton/scene/collision.py and src/payton/math/geometry.py).

Numeric model: Python floats are embedded as exact rationals (ℚ).  The
source compares `sqrt`-based Euclidean distances against radii; here every
such comparison is expressed on squared quantities, and bridging lemmas
relate each boolean to the literal `Real.sqrt` formulation of the source,
so the ℚ definitions are proven faithful to the float-free reading of the
code.  Python exceptions (IndexError on a list subscript, TypeError on
calling a non-callable) are embedded as `Option`/`Except` error values.
-/

namespace Payton

/-- A 3-component vector (a Python list `[x, y, z]` of floats). -/
structure V3 where
  x : ℚ
  y : ℚ
  z : ℚ
deriving DecidableEq

def V3.sub (a b : V3) : V3 :=
  ⟨a.x - b.x, a.y - b.y, a.z - b.z⟩

def V3.add (a b : V3) : V3 :=
  ⟨a.x + b.x, a.y + b.y, a.z + b.z⟩

def V3.smul (c : ℚ) (a : V3) : V3 :=
  ⟨c * a.x, c * a.y, c * a.z⟩

def V3.dot (a b : V3) : ℚ :=
  a.x * b.x + a.y * b.y + a.z * b.z

def V3.cross (a b : V3) : V3 :=
  ⟨a.y * b.z - a.z * b.y, a.z * b.x - a.x * b.z, a.x * b.y - a.y * b.x⟩

/-- Squared Euclidean norm of a 3-vector. -/
def V3.norm2 (a : V3) : ℚ :=
  a.dot a

/-- A 4-component homogeneous vector (a numpy array of length 4), the shape
`combine` in src/payton/math/geometry.py requires of its arguments (it reads
index 3). -/
structure V4 where
  x : ℚ
  y : ℚ
  z : ℚ
  w : ℚ
deriving DecidableEq

/-- src/payton/math/geometry.py, `point_project(p, origin, direction)`:
dot product of `p - origin` with `direction`, using components 0..2 only. -/
def point_project (p origin direction : V4) : ℚ :=
  direction.x * (p.x - origin.x) +
  direction.y * (p.y - origin.y) +
  direction.z * (p.z - origin.z)

/-- src/payton/math/geometry.py, `distance2(v1, v2)`:
`pyrr.vector3.length(v2 - v1) ** 2`.  `pyrr`'s length sums the squares of
every component of the array it is handed, so on these 4-component arrays
the `w` difference participates; squaring the square root is the identity
in exact arithmetic. -/
def distance2 (v1 v2 : V4) : ℚ :=
  (v2.x - v1.x) ^ 2 + (v2.y - v1.y) ^ 2 + (v2.z - v1.z) ^ 2 + (v2.w - v1.w) ^ 2

/-- src/payton/math/geometry.py, `combine(v1, v2, f1, f2)`:
component-wise `f1 * v1 + f2 * v2` over all four components. -/
def combine (v1 v2 : V4) (f1 f2 : ℚ) : V4 :=
  ⟨f1 * v1.x + f2 * v2.x,
   f1 * v1.y + f2 * v2.y,
   f1 * v1.z + f2 * v2.z,
   f1 * v1.w + f2 * v2.w⟩

/-- src/payton/math/geometry.py, `raycast_sphere_intersect`:
project the center on the ray, clamp a negative projection to zero,
materialize the point via `combine`, and compare the squared distance
strictly against the squared radius. -/
def raycast_sphere_intersect (start vector sphere_center : V4)
    (sphere_radius : ℚ) : Bool :=
  let proj := point_project sphere_center start vector
  let proj2 := if proj < 0 then (0 : ℚ) else proj
  let vc := combine start vector 1 proj2
  let dist := distance2 sphere_center vc
  decide (dist < sphere_radius ^ 2)

/-- Modelled from the spec: `segmentTriangleIntersect` (the source function
`line_triangle_intersect` imported by src/payton/scene/collision.py from
payton.math.geometry is not present in the available source).  Reports
whether the closed segment from `p0` to `p1` intersects the triangle
`(t0, t1, t2)`.  The spec leaves the edge-case policy open; this model
fixes: a degenerate (zero-normal) triangle never intersects, a segment
lying in the triangle's plane never intersects, and boundary contact of a
properly crossing segment (shared vertex or edge touch) counts as an
intersection. -/
def line_triangle_intersect (p0 p1 t0 t1 t2 : V3) : Bool :=
  let n := V3.cross (V3.sub t1 t0) (V3.sub t2 t0)
  if n = ⟨0, 0, 0⟩ then false
  else
    let d0 := V3.dot n (V3.sub p0 t0)
    let d1 := V3.dot n (V3.sub p1 t0)
    if (0 < d0 ∧ 0 < d1) ∨ (d0 < 0 ∧ d1 < 0) then false
    else if d0 = d1 then false
    else
      let t := d0 / (d0 - d1)
      let q := V3.add p0 (V3.smul t (V3.sub p1 p0))
      decide (0 ≤ V3.dot n (V3.cross (V3.sub t1 t0) (V3.sub q t0))) &&
      decide (0 ≤ V3.dot n (V3.cross (V3.sub t2 t1) (V3.sub q t1))) &&
      decide (0 ≤ V3.dot n (V3.cross (V3.sub t0 t2) (V3.sub q t2)))

/-- A collidable object as the collision module consumes it: identity,
world origin (row 3 of the model matrix; the `w` components of two such
rows are both 1, so they cancel in the difference taken by `_dist`),
bounding radius, whether it is an instance of the `Sphere` class, and the
flat vertex buffer `_vertices` with the triangle index buffer `_indices`. -/
structure Obj where
  oid : ℕ
  origin : V3
  bounding_radius : ℚ
  is_sphere : Bool
  vertices : List ℚ
  indices : List ℕ
deriving DecidableEq

/-- Square of `Collision._dist(obj1, obj2)`: squared Euclidean distance of
the two origins.  The source computes `distance(p1, p2)` with a square
root; every comparison of it below is restated on squares (see the
bridging lemmas relating each phase to its `Real.sqrt` form). -/
def dist2 (o1 o2 : Obj) : ℚ :=
  V3.norm2 (V3.sub o2.origin o1.origin)

/-- src/payton/scene/collision.py, `_bounding_sphere_collision`:
`dist <= obj1.bounding_radius + obj2.bounding_radius`.  In exact terms
`sqrt d2 <= t` holds iff `0 <= t` and `d2 <= t ^ 2` (lemma
`bounding_sphere_collision_iff_sqrt`). -/
def bounding_sphere_collision (o1 o2 : Obj) : Bool :=
  let total_radius := o1.bounding_radius + o2.bounding_radius
  decide (0 ≤ total_radius) && decide (dist2 o1 o2 ≤ total_radius ^ 2)

/-- src/payton/scene/collision.py, `_sphere_in_sphere_collision`:
true iff `obj1.bounding_radius > dist + obj2.bounding_radius` or
`obj2.bounding_radius > dist + obj1.bounding_radius`.  In exact terms
`r1 > sqrt d2 + r2` holds iff `r2 < r1` and `d2 < (r1 - r2) ^ 2` (lemma
`sphere_in_sphere_collision_iff_sqrt`). -/
def sphere_in_sphere_collision (o1 o2 : Obj) : Bool :=
  decide (o2.bounding_radius < o1.bounding_radius ∧
          dist2 o1 o2 < (o1.bounding_radius - o2.bounding_radius) ^ 2) ||
  decide (o1.bounding_radius < o2.bounding_radius ∧
          dist2 o1 o2 < (o2.bounding_radius - o1.bounding_radius) ^ 2)

/-- Read the 3-vector stored flat at positions `i*3 .. i*3+2` of a vertex
buffer; `none` embeds Python's IndexError on an out-of-range subscript. -/
def vertex_at (vs : List ℚ) (i : ℕ) : Option V3 :=
  match vs.get? (i * 3), vs.get? (i * 3 + 1), vs.get? (i * 3 + 2) with
  | some a, some b, some c => some ⟨a, b, c⟩
  | _, _, _ => none

/-- Inner loop of `_mesh_collision` (collision.py lines 89-129): iterate
`j` over the triangles of `o2`, building the second triangle and running
the six segment-vs-triangle tests against the fixed first triangle
`(p1, p2, p3)`.  NOTE the third index is read from `obj1._indices`
(collision.py line 93: `i1, i2, i3 = (obj2._indices[jx], obj2._indices[jx + 1],
obj1._indices[jx + 2])`) while its two neighbours read `obj2._indices`;
this embedding reproduces that read faithfully. -/
def mesh_inner (o1 o2 : Obj) (p1 p2 p3 : V3) : ℕ → ℕ → Option Bool
  | _, 0 => some false
  | j, rem + 1 =>
    let jx := j * 3
    match o2.indices.get? jx, o2.indices.get? (jx + 1),
          o1.indices.get? (jx + 2) with
    | some i1, some i2, some i3 =>
      match vertex_at o2.vertices i1, vertex_at o2.vertices i2,
            vertex_at o2.vertices i3 with
      | some q1, some q2, some q3 =>
        if line_triangle_intersect p1 p2 q1 q2 q3 then some true
        else if line_triangle_intersect p1 p3 q1 q2 q3 then some true
        else if line_triangle_intersect p2 p3 q1 q2 q3 then some true
        else if line_triangle_intersect q1 q2 p1 p2 p3 then some true
        else if line_triangle_intersect q1 q3 p1 p2 p3 then some true
        else if line_triangle_intersect q2 q3 p1 p2 p3 then some true
        else mesh_inner o1 o2 p1 p2 p3 (j + 1) rem
      | _, _, _ => none
    | _, _, _ => none

/-- Outer loop of `_mesh_collision` (collision.py lines 71-130): iterate
`i` over the triangles of `o1`, build the first triangle from `o1`'s own
buffers, and run `mesh_inner`. -/
def mesh_outer (o1 o2 : Obj) : ℕ → ℕ → Option Bool
  | _, 0 => some false
  | i, rem + 1 =>
    let ix := i * 3
    match o1.indices.get? ix, o1.indices.get? (ix + 1),
          o1.indices.get? (ix + 2) with
    | some i1, some i2, some i3 =>
      match vertex_at o1.vertices i1, vertex_at o1.vertices i2,
            vertex_at o1.vertices i3 with
      | some pa, some pb, some pc =>
        match mesh_inner o1 o2 pa pb pc 0 (o2.indices.length / 3) with
        | some true => some true
        | some false => mesh_outer o1 o2 (i + 1) rem
        | none => none
      | _, _, _ => none
    | _, _, _ => none

/-- src/payton/scene/collision.py, `_mesh_collision(obj1, obj2)`:
`math.floor(len(indices) / 3)` triangles on each side, `none` embedding an
IndexError raised inside the loops. -/
def mesh_collision (o1 o2 : Obj) : Option Bool :=
  mesh_outer o1 o2 0 (o1.indices.length / 3)

/-- Modelled from the spec: the narrow phase as §4.2 phase 4 describes it,
in which every triangle of B is built from B's own index buffer
(`obj2._indices[jx + 2]` for the third vertex where the source reads
`obj1._indices[jx + 2]`).  Identical to `mesh_inner` in every other
respect. -/
def mesh_inner_spec (o1 o2 : Obj) (p1 p2 p3 : V3) : ℕ → ℕ → Option Bool
  | _, 0 => some false
  | j, rem + 1 =>
    let jx := j * 3
    match o2.indices.get? jx, o2.indices.get? (jx + 1),
          o2.indices.get? (jx + 2) with
    | some i1, some i2, some i3 =>
      match vertex_at o2.vertices i1, vertex_at o2.vertices i2,
            vertex_at o2.vertices i3 with
      | some q1, some q2, some q3 =>
        if line_triangle_intersect p1 p2 q1 q2 q3 then some true
        else if line_triangle_intersect p1 p3 q1 q2 q3 then some true
        else if line_triangle_intersect p2 p3 q1 q2 q3 then some true
        else if line_triangle_intersect q1 q2 p1 p2 p3 then some true
        else if line_triangle_intersect q1 q3 p1 p2 p3 then some true
        else if line_triangle_intersect q2 q3 p1 p2 p3 then some true
        else mesh_inner_spec o1 o2 p1 p2 p3 (j + 1) rem
      | _, _, _ => none
    | _, _, _ => none

/-- Modelled from the spec: outer narrow-phase loop over A's triangles,
delegating to `mesh_inner_spec`. -/
def mesh_outer_spec (o1 o2 : Obj) : ℕ → ℕ → Option Bool
  | _, 0 => some false
  | i, rem + 1 =>
    let ix := i * 3
    match o1.indices.get? ix, o1.indices.get? (ix + 1),
          o1.indices.get? (ix + 2) with
    | some i1, some i2, some i3 =>
      match vertex_at o1.vertices i1, vertex_at o1.vertices i2,
            vertex_at o1.vertices i3 with
      | some pa, some pb, some pc =>
        match mesh_inner_spec o1 o2 pa pb pc 0 (o2.indices.length / 3) with
        | some true => some true
        | some false => mesh_outer_spec o1 o2 (i + 1) rem
        | none => none
      | _, _, _ => none
    | _, _, _ => none

/-- Modelled from the spec: the §4.2 phase-4 narrow phase in which each
side's triangles come from that side's own buffers. -/
def mesh_collision_spec (o1 o2 : Obj) : Option Bool :=
  mesh_outer_spec o1 o2 0 (o1.indices.length / 3)

/-- src/payton/scene/collision.py, `_test(obj1, obj2)`: sphere-vs-sphere
shortcut, then broad phase, then containment, then mesh narrow phase.
`none` embeds an IndexError escaping from `_mesh_collision`. -/
def classify (o1 o2 : Obj) : Option Bool :=
  if o1.is_sphere && o2.is_sphere then
    some (bounding_sphere_collision o1 o2)
  else if !(bounding_sphere_collision o1 o2) then
    some false
  else if sphere_in_sphere_collision o1 o2 then
    some true
  else
    mesh_collision o1 o2

/-- src/payton/scene/collision.py, class `Collision`, parameterized by the
type `κ` of callable callback values.  `callback = none` embeds a
non-invocable callback (such as the Python default `None`); `some k` a
callable one.  `pairs` is `self._pairs`, the list of already-reported
pairs. -/
structure Collision (κ : Type) where
  objects : List Obj
  callback : Option κ
  pairs : List (Obj × Obj)

/-- `Collision.__init__` (collision.py lines 25-36): store the roster and
the callback, start with an empty pair list.  The second component records
whether `logging.error('callback should be a callable')` ran, which it
does exactly when the callback is not callable; construction always
completes and returns the detector either way. -/
def Collision.init {κ : Type} (objects : List Obj) (callback : Option κ) :
    Collision κ × Bool :=
  (⟨objects, callback, []⟩, callback.isNone)

/-- `Collision.add_object` (collision.py lines 38-39): append to the
roster. -/
def Collision.add_object {κ : Type} (c : Collision κ) (o : Obj) :
    Collision κ :=
  { c with objects := c.objects ++ [o] }

/-- `Collision.resolve` (collision.py lines 148-165): remove the first
occurrence of `[obj1, obj2]` if present, then of `[obj2, obj1]` if present
(`List.erase` is exactly remove-first-if-present). -/
def Collision.resolve {κ : Type} (c : Collision κ) (o1 o2 : Obj) :
    Collision κ :=
  { c with pairs := (c.pairs.erase (o1, o2)).erase (o2, o1) }

/-- The index pairs visited by the double loop of `Collision.check`
(collision.py lines 168-171): `i` over `range(n - 1)`, `j` over
`range(n - i - 1)`, second subscript `i + j + 1`. -/
def pair_indices (n : ℕ) : List (ℕ × ℕ) :=
  (List.range (n - 1)).flatMap fun i =>
    (List.range (n - i - 1)).map fun j => (i, i + j + 1)

/-- Body of the `Collision.check` double loop (collision.py lines
168-177), threading the mutated `self._pairs`: skip a pair already present
in either order, otherwise run `_test` and append the pair on a positive
result.  `none` embeds an exception escaping the loop (an out-of-range
roster subscript, or an IndexError from `_test`). -/
def check_loop (os : List Obj) :
    List (ℕ × ℕ) → List (Obj × Obj) → Option (List (Obj × Obj))
  | [], ps => some ps
  | (i, k) :: rest, ps =>
    match os.get? i, os.get? k with
    | some o1, some o2 =>
      if (o1, o2) ∈ ps ∨ (o2, o1) ∈ ps then
        check_loop os rest ps
      else
        match classify o1 o2 with
        | none => none
        | some true => check_loop os rest (ps ++ [(o1, o2)])
        | some false => check_loop os rest ps
    | _, _ => none

/-- `Collision.check` (collision.py lines 167-179): run the double loop,
then perform `self.callback(self, self._pairs)` exactly once.  A
successful pass returns the updated detector together with the recorded
callback invocation: the detector passed as first argument and the entire
current pair list passed as second argument.  Errors embed the exceptions
of the source: an IndexError propagating from the loop, or the TypeError
Python raises when `self.callback` is not callable at the single call
site. -/
def Collision.check {κ : Type} (c : Collision κ) :
    Except String (Collision κ × Collision κ × List (Obj × Obj)) :=
  match check_loop c.objects (pair_indices c.objects.length) c.pairs with
  | none => Except.error "IndexError"
  | some ps =>
    let c2 : Collision κ := { c with pairs := ps }
    match c.callback with
    | none => Except.error "TypeError: callback is not callable"
    | some _ => Except.ok (c2, c2, ps)

/-- The pair-cache invariant of spec §3: each unordered pair appears at
most once regardless of the insertion order of its members (stated
decidably over the members of the list). -/
def PairInv (ps : List (Obj × Obj)) : Prop :=
  ps.Nodup ∧ ∀ p ∈ ps, (p.2, p.1) ∈ ps → p.1 = p.2

/-! Concrete objects used by counterexamples and witnesses. -/

/-- A one-triangle mesh in the plane z = 0, origin at the world origin,
bounding radius 1. -/
def objA : Obj :=
  ⟨0, ⟨0, 0, 0⟩, 1, false, [0, 0, 0, 1, 0, 0, 0, 1, 0], [0, 1, 2]⟩

/-- A two-triangle mesh in the plane z = 5, origin at the world origin,
bounding radius 1. -/
def objB : Obj :=
  ⟨1, ⟨0, 0, 0⟩, 1, false,
   [0, 0, 5, 1, 0, 5, 0, 1, 5, 3, 0, 5, 4, 0, 5, 3, 1, 5],
   [0, 1, 2, 3, 4, 5]⟩

/-- C1: evaluation of the narrow phase at a failing input.  `objA` has one
triangle, `objB` has two; because line 93 of collision.py reads the third
index of each of B's triangles from A's index buffer, the pass over B's
second triangle subscripts `objA._indices[5]`, which does not exist, and
the code raises IndexError (embedded as `none`).  The spec's narrow phase
(`mesh_collision_spec`, every triangle of B from B's own buffers) instead
completes and returns `false` on the same well-formed meshes. -/
theorem narrow_phase_wrong_index_buffer :
    mesh_collision objA objB = none
    ∧ mesh_collision_spec objA objB = some false := by
  constructor
  · norm_num [mesh_collision, mesh_outer, mesh_inner, vertex_at, objA, objB,
      line_triangle_intersect, V3.sub, V3.add, V3.smul, V3.dot, V3.cross,
      List.get?]
  · norm_num [mesh_collision_spec, mesh_outer_spec, mesh_inner_spec,
      vertex_at, objA, objB, line_triangle_intersect, V3.sub, V3.add,
      V3.smul, V3.dot, V3.cross, List.get?]

/-- C2: evaluation of the full classification at a failing input.
`objA` and `objB` share an origin and pass the broad phase, are not
contained in one another, and reach the mesh narrow phase; there the
index-buffer mix-up of collision.py line 93 makes the (A, B) order raise
IndexError (embedded as `none`) while the (B, A) order returns `False`,
so classification is not symmetric. -/
theorem classify_asymmetric :
    classify objA objB = none
    ∧ classify objB objA = some false
    ∧ classify objA objB ≠ classify objB objA := by
  have h1 : classify objA objB = none := by
    norm_num [classify, bounding_sphere_collision, sphere_in_sphere_collision,
      dist2, V3.norm2, mesh_collision, mesh_outer, mesh_inner, vertex_at,
      objA, objB, line_triangle_intersect, V3.sub, V3.add, V3.smul, V3.dot,
      V3.cross, List.get?]
  have h2 : classify objB objA = some false := by
    norm_num [classify, bounding_sphere_collision, sphere_in_sphere_collision,
      dist2, V3.norm2, mesh_collision, mesh_outer, mesh_inner, vertex_at,
      objA, objB, line_triangle_intersect, V3.sub, V3.add, V3.smul, V3.dot,
      V3.cross, List.get?]
  refine ⟨h1, h2, ?_⟩
  rw [h1, h2]
  simp

/-! Bridging lemmas: the ℚ booleans above are exactly the `Real.sqrt`
comparisons written in the source. -/

lemma dist2_nonneg (o1 o2 : Obj) : 0 ≤ dist2 o1 o2 := by
  simp only [dist2, V3.norm2, V3.dot, V3.sub]
  nlinarith [sq_nonneg (o2.origin.x - o1.origin.x),
    sq_nonneg (o2.origin.y - o1.origin.y), sq_nonneg (o2.origin.z - o1.origin.z)]

lemma sqrt_lt_pos_iff {x y : ℝ} : Real.sqrt x < y ↔ 0 < y ∧ x < y ^ 2 := by
  constructor
  · intro h
    have hy : 0 < y := lt_of_le_of_lt (Real.sqrt_nonneg x) h
    exact ⟨hy, (Real.sqrt_lt' hy).mp h⟩
  · rintro ⟨hy, h⟩
    exact (Real.sqrt_lt' hy).mpr h

/-- `_bounding_sphere_collision` is the source comparison
`distance(p1, p2) <= total_radius` verbatim, read through exact reals. -/
lemma bounding_sphere_collision_iff_sqrt (o1 o2 : Obj) :
    bounding_sphere_collision o1 o2 = true ↔
      Real.sqrt ((dist2 o1 o2 : ℚ) : ℝ) ≤
        ((o1.bounding_radius : ℚ) : ℝ) + ((o2.bounding_radius : ℚ) : ℝ) := by
  unfold bounding_sphere_collision
  simp only [Bool.and_eq_true, decide_eq_true_eq]
  rw [Real.sqrt_le_iff]
  constructor <;>
    (rintro ⟨h1, h2⟩; exact ⟨by exact_mod_cast h1, by exact_mod_cast h2⟩)

/-- `_sphere_in_sphere_collision` is the source comparison pair
`obj1.bounding_radius > dist + obj2.bounding_radius` /
`obj2.bounding_radius > dist + obj1.bounding_radius` verbatim, read
through exact reals. -/
lemma sphere_in_sphere_collision_iff_sqrt (o1 o2 : Obj) :
    sphere_in_sphere_collision o1 o2 = true ↔
      (Real.sqrt ((dist2 o1 o2 : ℚ) : ℝ) + ((o2.bounding_radius : ℚ) : ℝ)
          < ((o1.bounding_radius : ℚ) : ℝ) ∨
       Real.sqrt ((dist2 o1 o2 : ℚ) : ℝ) + ((o1.bounding_radius : ℚ) : ℝ)
          < ((o2.bounding_radius : ℚ) : ℝ)) := by
  unfold sphere_in_sphere_collision
  simp only [Bool.or_eq_true, decide_eq_true_eq]
  have key : ∀ a b : ℚ, (b < a ∧ dist2 o1 o2 < (a - b) ^ 2) ↔
      Real.sqrt ((dist2 o1 o2 : ℚ) : ℝ) + (b : ℝ) < (a : ℝ) := by
    intro a b
    rw [← lt_sub_iff_add_lt, sqrt_lt_pos_iff]
    have h3 : ((a : ℝ) - b) ^ 2 = (((a - b) ^ 2 : ℚ) : ℝ) := by
      push_cast
      ring
    constructor
    · rintro ⟨h1, h2⟩
      refine ⟨by exact_mod_cast sub_pos.mpr h1, ?_⟩
      rw [h3]
      exact_mod_cast h2
    · rintro ⟨h1, h2⟩
      have h1q : b < a := sub_pos.mp (by exact_mod_cast h1)
      rw [h3] at h2
      exact ⟨h1q, by exact_mod_cast h2⟩
  exact or_congr (key _ _) (key _ _)

/-! Structural lemmas about the detection-pass loop. -/

/-- A successful pass appends to the pair list; every appended pair tested
positive and was (in either order) absent from the list the pass started
from. -/
lemma check_loop_grows {os : List Obj} :
    ∀ {L : List (ℕ × ℕ)} {ps ps' : List (Obj × Obj)},
      check_loop os L ps = some ps' →
      ∃ ext, ps' = ps ++ ext ∧ ∀ p ∈ ext,
        classify p.1 p.2 = some true ∧ (p.1, p.2) ∉ ps ∧ (p.2, p.1) ∉ ps := by
  intro L
  induction L with
  | nil =>
    intro ps ps' h
    simp only [check_loop, Option.some.injEq] at h
    exact ⟨[], by simp [h], by simp⟩
  | cons hd tl ih =>
    intro ps ps' h
    obtain ⟨i, k⟩ := hd
    rw [check_loop] at h
    cases h1 : os.get? i with
    | none => simp only [h1] at h; exact absurd h (by simp)
    | some o1 =>
      cases h2 : os.get? k with
      | none => simp only [h1, h2] at h; exact absurd h (by simp)
      | some o2 =>
        simp only [h1, h2] at h
        by_cases hmem : (o1, o2) ∈ ps ∨ (o2, o1) ∈ ps
        · rw [if_pos hmem] at h
          exact ih h
        · rw [if_neg hmem] at h
          push_neg at hmem
          cases hcl : classify o1 o2 with
          | none => simp only [hcl] at h; exact absurd h (by simp)
          | some b =>
            cases b with
            | false => simp only [hcl] at h; exact ih h
            | true =>
              simp only [hcl] at h
              obtain ⟨ext, hext, hprop⟩ := ih h
              refine ⟨(o1, o2) :: ext, by simp [hext], ?_⟩
              intro p hp
              rcases List.mem_cons.mp hp with rfl | hp
              · exact ⟨hcl, hmem.1, hmem.2⟩
              · obtain ⟨hc, hn1, hn2⟩ := hprop p hp
                refine ⟨hc, fun hx => hn1 ?_, fun hx => hn2 ?_⟩
                · exact List.mem_append_left _ hx
                · exact List.mem_append_left _ hx

/-- Members of the starting pair list survive a successful pass. -/
lemma check_loop_subset {os : List Obj} {L : List (ℕ × ℕ)}
    {ps ps' : List (Obj × Obj)} (h : check_loop os L ps = some ps') :
    ∀ p ∈ ps, p ∈ ps' := by
  obtain ⟨ext, rfl, -⟩ := check_loop_grows h
  intro p hp
  exact List.mem_append_left _ hp

/-- Running the loop again on the pair list a successful pass produced
changes nothing: every pair it would add is already present, every other
pair re-evaluates as before. -/
lemma check_loop_idem {os : List Obj} :
    ∀ {L : List (ℕ × ℕ)} {ps ps' : List (Obj × Obj)},
      check_loop os L ps = some ps' → check_loop os L ps' = some ps' := by
  intro L
  induction L with
  | nil =>
    intro ps ps' h
    simp only [check_loop, Option.some.injEq] at h
    simp [check_loop]
  | cons hd tl ih =>
    intro ps ps' h
    obtain ⟨i, k⟩ := hd
    rw [check_loop] at h ⊢
    cases h1 : os.get? i with
    | none => simp only [h1] at h; exact absurd h (by simp)
    | some o1 =>
      cases h2 : os.get? k with
      | none => simp only [h1, h2] at h; exact absurd h (by simp)
      | some o2 =>
        simp only [h1, h2] at h ⊢
        by_cases hmem : (o1, o2) ∈ ps ∨ (o2, o1) ∈ ps
        · rw [if_pos hmem] at h
          have hmem' : (o1, o2) ∈ ps' ∨ (o2, o1) ∈ ps' := by
            rcases hmem with hx | hx
            · exact Or.inl (check_loop_subset h _ hx)
            · exact Or.inr (check_loop_subset h _ hx)
          rw [if_pos hmem']
          exact ih h
        · rw [if_neg hmem] at h
          cases hcl : classify o1 o2 with
          | none => simp only [hcl] at h; exact absurd h (by simp)
          | some b =>
            cases b with
            | true =>
              simp only [hcl] at h
              have hmem' : (o1, o2) ∈ ps' ∨ (o2, o1) ∈ ps' :=
                Or.inl (check_loop_subset h _ (by simp))
              rw [if_pos hmem']
              exact ih h
            | false =>
              simp only [hcl] at h
              by_cases hmem' : (o1, o2) ∈ ps' ∨ (o2, o1) ∈ ps'
              · rw [if_pos hmem']
                exact ih h
              · rw [if_neg hmem']
                simp only [hcl]
                exact ih h

/-- Appending a genuinely new pair preserves the at-most-once invariant. -/
lemma pairinv_append {ps : List (Obj × Obj)} {a b : Obj} (h : PairInv ps)
    (h1 : (a, b) ∉ ps) (h2 : (b, a) ∉ ps) : PairInv (ps ++ [(a, b)]) := by
  constructor
  · exact h.1.append (List.nodup_singleton _) (by
      intro p hp hq
      rw [List.mem_singleton] at hq
      exact h1 (hq ▸ hp))
  · intro p hp hswap
    rcases List.mem_append.mp hp with hp | hp
    · rcases List.mem_append.mp hswap with hswap | hswap
      · exact h.2 p hp hswap
      · rw [List.mem_singleton] at hswap
        have h21 : p.2 = a := congrArg Prod.fst hswap
        have h22 : p.1 = b := congrArg Prod.snd hswap
        have hba : p = (b, a) := Prod.ext h22 h21
        exact absurd (hba ▸ hp) h2
    · rw [List.mem_singleton] at hp
      subst hp
      rcases List.mem_append.mp hswap with hswap | hswap
      · exact absurd hswap h2
      · rw [List.mem_singleton, Prod.mk.injEq] at hswap
        exact hswap.1.symm

/-- A successful pass preserves the at-most-once pair-cache invariant. -/
lemma check_loop_pairinv {os : List Obj} :
    ∀ {L : List (ℕ × ℕ)} {ps ps' : List (Obj × Obj)},
      PairInv ps → check_loop os L ps = some ps' → PairInv ps' := by
  intro L
  induction L with
  | nil =>
    intro ps ps' hinv h
    simp only [check_loop, Option.some.injEq] at h
    exact h ▸ hinv
  | cons hd tl ih =>
    intro ps ps' hinv h
    obtain ⟨i, k⟩ := hd
    rw [check_loop] at h
    cases h1 : os.get? i with
    | none => simp only [h1] at h; exact absurd h (by simp)
    | some o1 =>
      cases h2 : os.get? k with
      | none => simp only [h1, h2] at h; exact absurd h (by simp)
      | some o2 =>
        simp only [h1, h2] at h
        by_cases hmem : (o1, o2) ∈ ps ∨ (o2, o1) ∈ ps
        · rw [if_pos hmem] at h
          exact ih hinv h
        · rw [if_neg hmem] at h
          push_neg at hmem
          cases hcl : classify o1 o2 with
          | none => simp only [hcl] at h; exact absurd h (by simp)
          | some b =>
            cases b with
            | false => simp only [hcl] at h; exact ih hinv h
            | true =>
              simp only [hcl] at h
              exact ih (pairinv_append hinv hmem.1 hmem.2) h

/-! The index pairs the double loop of `check` visits. -/

/-- The double loop visits precisely the ordered index pairs `i < k < n`:
every unordered pair of distinct roster positions, each exactly once (with
`pair_indices_nodup`). -/
lemma pair_indices_mem (n i k : ℕ) :
    (i, k) ∈ pair_indices n ↔ i < k ∧ k < n := by
  simp only [pair_indices, List.mem_flatMap, List.mem_map, List.mem_range,
    Prod.mk.injEq]
  constructor
  · rintro ⟨a, ha, b, hb, rfl, rfl⟩
    omega
  · rintro ⟨h1, h2⟩
    exact ⟨i, by omega, k - i - 1, by omega, rfl, by omega⟩

/-- No index pair is visited twice. -/
lemma pair_indices_nodup (n : ℕ) : (pair_indices n).Nodup := by
  apply List.nodup_flatMap.mpr
  constructor
  · intro i _
    apply List.Nodup.map ?_ (List.nodup_range _)
    intro a b hab
    simpa using congrArg Prod.snd hab
  · apply List.Pairwise.imp ?_ (List.pairwise_lt_range (n - 1))
    intro a b hab
    intro p hpa hpb
    obtain ⟨ja, -, rfl⟩ := List.mem_map.mp hpa
    obtain ⟨jb, -, hEq⟩ := List.mem_map.mp hpb
    have := congrArg Prod.fst hEq
    simp at this
    omega

/-! Concrete objects for witnesses. -/

/-- A primitive sphere of radius 1/2 at the world origin (the `Sphere`
default radius is 0.5). -/
def sphA : Obj := ⟨2, ⟨0, 0, 0⟩, 1/2, true, [], []⟩

/-- A primitive sphere of radius 1/2 at (1, 0, 0). -/
def sphB : Obj := ⟨3, ⟨1, 0, 0⟩, 1/2, true, [], []⟩

/-- A non-sphere object of radius 1 at the world origin. -/
def farA : Obj := ⟨4, ⟨0, 0, 0⟩, 1, false, [], []⟩

/-- A non-sphere object of radius 1 at (100, 0, 0): the spec's negative
broad-phase example partner for `farA`. -/
def farB : Obj := ⟨5, ⟨100, 0, 0⟩, 1, false, [], []⟩

/-- A primitive sphere of radius 10 at the world origin: the spec's
containment example container. -/
def containA : Obj := ⟨6, ⟨0, 0, 0⟩, 10, true, [], []⟩

/-- A mesh object of radius 1 at (1, 0, 0): the spec's containment example
contained object. -/
def containB : Obj := ⟨7, ⟨1, 0, 0⟩, 1, false, [], []⟩

/-! Claim theorems. -/

/-- C6: the broad phase classifies a pair as a collision candidate iff the
distance between the origins is at most the sum of the bounding radii, and
a negative broad phase makes the whole classification `false` immediately,
with the objects' vertex and index buffers never examined (the result is
the same for every replacement of both buffers). -/
theorem broad_phase_gate (o1 o2 : Obj) :
    (bounding_sphere_collision o1 o2 = true ↔
      Real.sqrt ((dist2 o1 o2 : ℚ) : ℝ) ≤
        ((o1.bounding_radius : ℚ) : ℝ) + ((o2.bounding_radius : ℚ) : ℝ))
    ∧ (bounding_sphere_collision o1 o2 = false →
      ∀ vs1 is1 vs2 is2,
        classify { o1 with vertices := vs1, indices := is1 }
                 { o2 with vertices := vs2, indices := is2 } = some false) := by
  refine ⟨bounding_sphere_collision_iff_sqrt o1 o2, ?_⟩
  intro hbf vs1 is1 vs2 is2
  have hb2 : bounding_sphere_collision
      { o1 with vertices := vs1, indices := is1 }
      { o2 with vertices := vs2, indices := is2 } = false := hbf
  simp only [classify, hb2, Bool.not_false, if_true, ite_self]

/-- Evaluation for the C6 witness: the spec's negative broad-phase pair,
origins (0,0,0) and (100,0,0) with radius 1 each. -/
lemma farA_farB_no_broad : bounding_sphere_collision farA farB = false := by
  norm_num [bounding_sphere_collision, dist2, V3.norm2, V3.dot, V3.sub,
    farA, farB]

/-- C6 witness: the negative broad-phase example classifies `false` even
with nonempty mesh buffers attached. -/
theorem broad_phase_gate_witness :
    classify { farA with vertices := [0, 0, 0], indices := [0, 0, 0] }
             { farB with vertices := [0, 0, 0], indices := [0, 0, 0] } =
      some false :=
  (broad_phase_gate farA farB).2 farA_farB_no_broad [0, 0, 0] [0, 0, 0]
    [0, 0, 0] [0, 0, 0]

/-- C7: when both objects are primitive spheres, the classification equals
the broad-phase bounding-sphere test alone, and neither containment nor
the mesh narrow phase is evaluated: the result is utterly independent of
the vertex and index buffers. -/
theorem sphere_sphere_shortcut (o1 o2 : Obj) (h1 : o1.is_sphere = true)
    (h2 : o2.is_sphere = true) :
    classify o1 o2 = some (bounding_sphere_collision o1 o2)
    ∧ ∀ vs1 is1 vs2 is2,
      classify { o1 with vertices := vs1, indices := is1 }
               { o2 with vertices := vs2, indices := is2 } =
        some (bounding_sphere_collision o1 o2) := by
  constructor
  · simp only [classify, h1, h2, Bool.and_self, if_true]
  · intro vs1 is1 vs2 is2
    simp only [classify, h1, h2, Bool.and_self, if_true]
    rfl

/-- C7 witness: two touching primitive spheres classify by the broad phase
alone. -/
theorem sphere_sphere_shortcut_witness :
    classify sphA sphB = some (bounding_sphere_collision sphA sphB) :=
  (sphere_sphere_shortcut sphA sphB rfl rfl).1

/-- C8: a pair that passes the broad phase, is not two primitive spheres,
and has one bounding sphere strictly containing the other (in either
direction) classifies as colliding without the mesh narrow phase running:
the positive result is independent of both objects' mesh buffers. -/
theorem containment_phase_positive (o1 o2 : Obj)
    (hns : o1.is_sphere = false ∨ o2.is_sphere = false)
    (hb : Real.sqrt ((dist2 o1 o2 : ℚ) : ℝ) ≤
      ((o1.bounding_radius : ℚ) : ℝ) + ((o2.bounding_radius : ℚ) : ℝ))
    (hc : Real.sqrt ((dist2 o1 o2 : ℚ) : ℝ) + ((o2.bounding_radius : ℚ) : ℝ)
        < ((o1.bounding_radius : ℚ) : ℝ) ∨
      Real.sqrt ((dist2 o1 o2 : ℚ) : ℝ) + ((o1.bounding_radius : ℚ) : ℝ)
        < ((o2.bounding_radius : ℚ) : ℝ)) :
    classify o1 o2 = some true
    ∧ ∀ vs1 is1 vs2 is2,
      classify { o1 with vertices := vs1, indices := is1 }
               { o2 with vertices := vs2, indices := is2 } = some true := by
  have hbq : bounding_sphere_collision o1 o2 = true :=
    (bounding_sphere_collision_iff_sqrt o1 o2).mpr hb
  have hcq : sphere_in_sphere_collision o1 o2 = true :=
    (sphere_in_sphere_collision_iff_sqrt o1 o2).mpr hc
  have hs : (o1.is_sphere && o2.is_sphere) = false := by
    rcases hns with h | h <;> simp [h]
  constructor
  · simp [classify, hs, hbq, hcq]
  · intro vs1 is1 vs2 is2
    have hbq2 : bounding_sphere_collision
        { o1 with vertices := vs1, indices := is1 }
        { o2 with vertices := vs2, indices := is2 } = true := hbq
    have hcq2 : sphere_in_sphere_collision
        { o1 with vertices := vs1, indices := is1 }
        { o2 with vertices := vs2, indices := is2 } = true := hcq
    have hs2 : (({ o1 with vertices := vs1, indices := is1 } : Obj).is_sphere
        && ({ o2 with vertices := vs2, indices := is2 } : Obj).is_sphere)
        = false := hs
    simp [classify, hs2, hbq2, hcq2]

/-- Evaluation for the C8 witness: the broad phase of the spec's
containment example (distance 1, radii 10 and 1). -/
lemma contain_broad_eval :
    Real.sqrt ((dist2 containA containB : ℚ) : ℝ) ≤
      ((containA.bounding_radius : ℚ) : ℝ) +
        ((containB.bounding_radius : ℚ) : ℝ) := by
  have h1 : ((dist2 containA containB : ℚ) : ℝ) = 1 := by
    norm_num [dist2, V3.norm2, V3.dot, V3.sub, containA, containB]
  rw [h1, Real.sqrt_one]
  norm_num [containA, containB]

/-- Evaluation for the C8 witness: the containment inequality
`radiusA (10) > distance (1) + radiusB (1)` of the spec's example. -/
lemma contain_inside_eval :
    Real.sqrt ((dist2 containA containB : ℚ) : ℝ) +
        ((containB.bounding_radius : ℚ) : ℝ) <
      ((containA.bounding_radius : ℚ) : ℝ) := by
  have h1 : ((dist2 containA containB : ℚ) : ℝ) = 1 := by
    norm_num [dist2, V3.norm2, V3.dot, V3.sub, containA, containB]
  rw [h1, Real.sqrt_one]
  norm_num [containA, containB]

/-- C8 witness: the spec's containment example (sphere radius 10 at the
origin, mesh of radius 1 at (1,0,0), distance 1) classifies as colliding. -/
theorem containment_phase_positive_witness :
    classify containA containB = some true :=
  (containment_phase_positive containA containB (Or.inr rfl)
    contain_broad_eval (Or.inl contain_inside_eval)).1

/-- C10: `raycast_sphere_intersect` returns true iff the squared distance
from the clamped-projection point on the forward ray (the projection is
replaced by zero when negative) to the sphere center is strictly less than
the squared radius; exact tangency (equality) returns false. -/
theorem raycast_tangency_boundary (s v c : V4) (r : ℚ) :
    (raycast_sphere_intersect s v c r = true ↔
      distance2 c (combine s v 1 (max 0 (point_project c s v))) < r ^ 2)
    ∧ (distance2 c (combine s v 1 (max 0 (point_project c s v))) = r ^ 2 →
      raycast_sphere_intersect s v c r = false) := by
  have hmax : (if point_project c s v < 0 then (0 : ℚ)
      else point_project c s v) = max 0 (point_project c s v) := by
    by_cases h : point_project c s v < 0
    · rw [if_pos h, max_eq_left h.le]
    · rw [if_neg h, max_eq_right (not_lt.mp h)]
  have hiff : raycast_sphere_intersect s v c r = true ↔
      distance2 c (combine s v 1 (max 0 (point_project c s v))) < r ^ 2 := by
    simp only [raycast_sphere_intersect, hmax, decide_eq_true_eq]
  refine ⟨hiff, fun heq => ?_⟩
  cases hbool : raycast_sphere_intersect s v c r with
  | false => rfl
  | true =>
    have hlt := hiff.mp hbool
    rw [heq] at hlt
    exact absurd hlt (lt_irrefl _)

/-- Evaluation for the C10 witness: a ray from the origin along x against
a sphere centered at (5,3,0) of radius 3 meets it exactly tangentially:
the closest forward point is (5,0,0) at squared distance 9 = radius². -/
lemma raycast_tangent_eval :
    distance2 ⟨5, 3, 0, 0⟩
      (combine ⟨0, 0, 0, 0⟩ ⟨1, 0, 0, 0⟩ 1
        (max 0 (point_project ⟨5, 3, 0, 0⟩ ⟨0, 0, 0, 0⟩ ⟨1, 0, 0, 0⟩))) =
      3 ^ 2 := by
  norm_num [distance2, combine, point_project]

/-- C10 witness: the tangent ray reports no intersection. -/
theorem raycast_tangency_boundary_witness :
    raycast_sphere_intersect ⟨0, 0, 0, 0⟩ ⟨1, 0, 0, 0⟩ ⟨5, 3, 0, 0⟩ 3 =
      false :=
  (raycast_tangency_boundary ⟨0, 0, 0, 0⟩ ⟨1, 0, 0, 0⟩ ⟨5, 3, 0, 0⟩ 3).2
    raycast_tangent_eval

/-- An empty `pair_indices` list behind a roster of fewer than two
objects. -/
lemma pair_indices_small {n : ℕ} (h : n < 2) : pair_indices n = [] := by
  have h0 : n - 1 = 0 := by omega
  simp [pair_indices, h0]

/-- C3: a detection pass runs the classification over exactly the
unordered pairs of distinct roster positions (each exactly once), skips
pairs already cached in either order, appends exactly the positively
classified new pairs, and then invokes the callback exactly once, passing
the detector and the entire current pair cache; with fewer than two
objects the cache is unchanged and the callback still runs. -/
theorem detection_pass_contract {κ : Type} (c : Collision κ) (k : κ)
    (ps' : List (Obj × Obj)) (hcb : c.callback = some k)
    (hloop : check_loop c.objects (pair_indices c.objects.length) c.pairs =
      some ps') :
    Collision.check c =
      Except.ok ({ c with pairs := ps' }, { c with pairs := ps' }, ps')
    ∧ (∀ i j : ℕ, (i, j) ∈ pair_indices c.objects.length ↔
        i < j ∧ j < c.objects.length)
    ∧ (pair_indices c.objects.length).Nodup
    ∧ (∃ ext, ps' = c.pairs ++ ext ∧ ∀ p ∈ ext,
        classify p.1 p.2 = some true ∧ (p.1, p.2) ∉ c.pairs ∧
          (p.2, p.1) ∉ c.pairs)
    ∧ (c.objects.length < 2 → ps' = c.pairs) := by
  refine ⟨?_, fun i j => pair_indices_mem _ i j, pair_indices_nodup _,
    check_loop_grows hloop, ?_⟩
  · simp only [Collision.check, hloop, hcb]
  · intro hsmall
    rw [pair_indices_small hsmall] at hloop
    simp only [check_loop, Option.some.injEq] at hloop
    exact hloop.symm

/-- A two-sphere detector with a callable callback and an empty cache. -/
def colEx : Collision Unit := ⟨[sphA, sphB], some (), []⟩

/-- Evaluation for the C3/C5 witnesses: the single index pair (0, 1) is
visited, the two touching spheres classify positively, and the pass ends
with exactly that pair cached. -/
lemma colEx_loop_eval :
    check_loop colEx.objects (pair_indices colEx.objects.length)
      colEx.pairs = some [(sphA, sphB)] := by
  norm_num [colEx, check_loop, pair_indices, List.range_succ, classify,
    bounding_sphere_collision, sphere_in_sphere_collision, dist2, V3.norm2,
    V3.dot, V3.sub, sphA, sphB, List.get?]

/-- C3 witness: the two-sphere detector reports exactly the one pair and
hands the callback the detector plus the whole cache. -/
theorem detection_pass_contract_witness :
    Collision.check colEx =
      Except.ok ({ colEx with pairs := [(sphA, sphB)] },
        { colEx with pairs := [(sphA, sphB)] }, [(sphA, sphB)]) :=
  (detection_pass_contract colEx () [(sphA, sphB)] rfl colEx_loop_eval).1

/-- C4: the pair cache keeps each unordered pair at most once under every
operation: `resolve` preserves the invariant and removes exactly the named
pair in both orders (a no-op when the pair is absent in both orders),
`add_object` leaves the cache untouched, and a detection pass preserves
the invariant while growing the cache only by pairs that classified
positively and were not cached in either order. -/
theorem pair_cache_invariant {κ : Type} (c : Collision κ) (a b o : Obj)
    (ps' : List (Obj × Obj)) (hinv : PairInv c.pairs) :
    PairInv (c.resolve a b).pairs
    ∧ (∀ p, p ∈ (c.resolve a b).pairs ↔
        p ∈ c.pairs ∧ p ≠ (a, b) ∧ p ≠ (b, a))
    ∧ ((a, b) ∉ c.pairs → (b, a) ∉ c.pairs → c.resolve a b = c)
    ∧ (c.add_object o).pairs = c.pairs
    ∧ (check_loop c.objects (pair_indices c.objects.length) c.pairs =
        some ps' →
      PairInv ps' ∧ ∃ ext, ps' = c.pairs ++ ext ∧ ∀ p ∈ ext,
        classify p.1 p.2 = some true ∧ (p.1, p.2) ∉ c.pairs ∧
          (p.2, p.1) ∉ c.pairs) := by
  refine ⟨?_, ?_, ?_, rfl, fun h => ⟨check_loop_pairinv hinv h,
    check_loop_grows h⟩⟩
  · refine ⟨(hinv.1.erase _).erase _, fun p hp hswap => ?_⟩
    exact hinv.2 p (List.mem_of_mem_erase (List.mem_of_mem_erase hp))
      (List.mem_of_mem_erase (List.mem_of_mem_erase hswap))
  · intro p
    rw [Collision.resolve]
    constructor
    · intro hp
      have h1 := (List.Nodup.mem_erase_iff (hinv.1.erase (a, b))).mp hp
      have h2 := (List.Nodup.mem_erase_iff hinv.1).mp h1.2
      exact ⟨h2.2, h2.1, h1.1⟩
    · rintro ⟨hp, hne1, hne2⟩
      exact (List.Nodup.mem_erase_iff (hinv.1.erase (a, b))).mpr
        ⟨hne2, (List.Nodup.mem_erase_iff hinv.1).mpr ⟨hne1, hp⟩⟩
  · intro h1 h2
    rw [Collision.resolve, List.erase_of_not_mem h1, List.erase_of_not_mem h2]

/-- A detector whose cache already holds the pair of touching spheres. -/
def colPair : Collision Unit := ⟨[sphA, sphB], some (), [(sphA, sphB)]⟩

/-- Evaluation for the C4 witness: a one-pair cache of two distinct
spheres satisfies the at-most-once invariant. -/
lemma colPair_inv : PairInv colPair.pairs := by
  constructor
  · simp [colPair]
  · intro p hp hswap
    simp only [colPair, List.mem_singleton] at hp hswap
    subst hp
    simp only [Prod.mk.injEq] at hswap
    exact hswap.2

/-- C4 witness: resolving the cached pair preserves the invariant. -/
theorem pair_cache_invariant_witness :
    PairInv ((colPair.resolve sphA sphB).pairs) :=
  (pair_cache_invariant colPair sphA sphB sphA [] colPair_inv).1

/-- C5: if a detection pass succeeds, running it again immediately, with
no resolve in between and unchanged geometry, reports the identical pair
set and leaves the detector in the identical state: the callback argument
of the first pass is exactly the cache of the detector it returned, and a
second pass reproduces the same result because every positive pair is
already cached and skipped and every other pair re-evaluates identically. -/
theorem detection_pass_idempotent {κ : Type} (c : Collision κ)
    (r : Collision κ × Collision κ × List (Obj × Obj))
    (h : Collision.check c = Except.ok r) :
    Collision.check r.1 = Except.ok r ∧ r.2.2 = r.1.pairs := by
  rw [Collision.check] at h
  cases hloop : check_loop c.objects (pair_indices c.objects.length)
      c.pairs with
  | none =>
    simp only [hloop] at h
    exact absurd h (by simp)
  | some ps' =>
    simp only [hloop] at h
    cases hcb : c.callback with
    | none =>
      simp only [hcb] at h
      exact absurd h (by simp)
    | some k =>
      simp only [hcb, Except.ok.injEq] at h
      subst h
      refine ⟨?_, rfl⟩
      rw [Collision.check]
      have hloop2 : check_loop c.objects (pair_indices c.objects.length)
          ps' = some ps' := check_loop_idem hloop
      simp only [hloop2, hcb]

/-- Evaluation for the C5 witness: the first pass of the two-sphere
detector succeeds with the one pair cached. -/
lemma colEx_check_eval :
    Collision.check colEx =
      Except.ok ({ colEx with pairs := [(sphA, sphB)] },
        { colEx with pairs := [(sphA, sphB)] }, [(sphA, sphB)]) := by
  rw [Collision.check]
  simp only [colEx_loop_eval]
  rfl

/-- C5 witness: the second pass of the two-sphere detector returns the
identical report. -/
theorem detection_pass_idempotent_witness :
    Collision.check ({ colEx with pairs := [(sphA, sphB)] }) =
      Except.ok ({ colEx with pairs := [(sphA, sphB)] },
        { colEx with pairs := [(sphA, sphB)] }, [(sphA, sphB)]) :=
  (detection_pass_idempotent colEx
    ({ colEx with pairs := [(sphA, sphB)] },
      { colEx with pairs := [(sphA, sphB)] }, [(sphA, sphB)])
    colEx_check_eval).1

/-- C9 counterexample: constructing a detector with a non-invocable
callback is not a hard failure of construction.  Construction completes
normally, returning the detector (the configuration error is merely
logged, recorded here by the `true` flag), and a detection pass still
attempts the callback, failing there with a TypeError instead. -/
theorem callback_config_error_cex :
    Collision.init ([] : List Obj) (none : Option Unit) =
      (⟨[], none, []⟩, true)
    ∧ Collision.check (⟨[], none, []⟩ : Collision Unit) =
      Except.error "TypeError: callback is not callable" :=
  ⟨rfl, rfl⟩

/-- C9 amended: construction with a non-invocable callback logs
`callback should be a callable` and continues normally, returning the
detector; a callable callback logs nothing; and because detection passes
still invoke the callback, a detector left with a non-invocable callback
can never complete a detection pass successfully — the failure surfaces at
the pass, not at construction. -/
theorem callback_config_error_warn_and_continue {κ : Type}
    (objs : List Obj) (ps : List (Obj × Obj)) :
    (Collision.init objs (none : Option κ)).2 = true
    ∧ (Collision.init objs (none : Option κ)).1 = ⟨objs, none, []⟩
    ∧ (∀ k : κ, (Collision.init objs (some k)).2 = false)
    ∧ ∀ r, Collision.check (⟨objs, none, ps⟩ : Collision κ) ≠
        Except.ok r := by
  refine ⟨rfl, rfl, fun k => rfl, ?_⟩
  intro r h
  rw [Collision.check] at h
  cases hloop : check_loop objs (pair_indices objs.length) ps with
  | none =>
    simp only [hloop] at h
    exact absurd h (by simp)
  | some ps2 =>
    simp only [hloop] at h
    exact absurd h (by simp)

/-- C9 amended witness: a concrete detector built with callback `None`
has the error logged and its detection pass never succeeds. -/
theorem callback_config_error_warn_and_continue_witness :
    (Collision.init ([] : List Obj) (none : Option Unit)).2 = true
    ∧ Collision.check (⟨[], none, []⟩ : Collision Unit) ≠
      Except.ok (⟨[], none, []⟩, ⟨[], none, []⟩, []) :=
  ⟨(callback_config_error_warn_and_continue ([] : List Obj) []).1,
   (callback_config_error_warn_and_continue ([] : List Obj) []).2.2.2 _⟩

end Payton
